import Mathlib

/-!
Shallow embedding of the lead-management backend (src/src/main.py,
src/src/models.py): the CSV bulk-import pipeline of `load_data_file`
and the JWT token utilities `create_access_token` / `verify_token`.

Machine-level conventions of the embedding:
* pandas dataframes become a header list plus a list of string rows
  (`read_csv(dtype=str).fillna('')` makes every cell a string, with
  missing cells the empty string);
* the SQLAlchemy session becomes an explicit `DB` value threaded through
  the pipeline; flush assigns ids from a counter; commit failure is an
  external event modelled by a boolean oracle, and rollback restores the
  `DB` value from the start of the request transaction;
* Python enum constructors `Source(s)` etc. raise `ValueError` on an
  unknown label, modelled as `Option`-returning parsers;
* error messages are modelled structurally (which error kind, at which
  1-based CSV position) rather than as formatted strings.
-/

namespace Glimpse

/-! ## Enums (src/src/models.py) -/

inductive Source where
  | REFERRAL | WEBSITE | COLD_CALL | EVENT
  deriving DecidableEq, Repr

/-- Python `Source(value)`: lookup by value, `ValueError` (none) otherwise. -/
def Source.ofString : String → Option Source
  | "Referral" => some .REFERRAL
  | "Website" => some .WEBSITE
  | "Cold Call" => some .COLD_CALL
  | "Event" => some .EVENT
  | _ => none

inductive Interest where
  | LOW | MEDIUM | HIGH
  deriving DecidableEq, Repr

def Interest.ofString : String → Option Interest
  | "Low" => some .LOW
  | "Medium" => some .MEDIUM
  | "High" => some .HIGH
  | _ => none

inductive Status where
  | NEW | CONTACTED | QUALIFIED | CLOSED
  deriving DecidableEq, Repr

def Status.ofString : String → Option Status
  | "New" => some .NEW
  | "Contacted" => some .CONTACTED
  | "Qualified" => some .QUALIFIED
  | "Closed" => some .CLOSED
  | _ => none

/-! ## Persisted records and database state -/

/-- A persisted row of the `leads` table. -/
structure LeadRec where
  id : Nat
  name : String
  contact_information : String
  source : Source
  interest : Interest
  status : Status
  assigned_salesperson_name : String
  salesperson_id : Option Nat
  deriving DecidableEq, Repr

/-- A persisted row of the `sales_persons` table. -/
structure SalesPersonRec where
  id : Nat
  name : String
  hashed_password : String
  deriving DecidableEq, Repr

/-- The database state visible to one import request: both tables plus
the id counters the store uses when a flushed insert has no id. -/
structure DB where
  leads : List LeadRec
  salesPersons : List SalesPersonRec
  nextLeadId : Nat
  nextSalesPersonId : Nat
  deriving DecidableEq, Repr

/-! ## CSV input -/

/-- One data row of the uploaded CSV, as read with `dtype=str` and
`fillna('')`: every cell is a string, absent cells are `""`. -/
structure CsvRow where
  leadName : String
  contactInformation : String
  source : String
  interestLevel : String
  status : String
  assignedSalesperson : String
  deriving DecidableEq, Repr

/-- The parsed dataframe: its column header and its data rows. The only
use the pipeline makes of `columns` is the required-column check, so a
frame whose header lacks a column still carries `CsvRow` rows. -/
structure DataFrame where
  columns : List String
  rows : List CsvRow
  deriving DecidableEq, Repr

def requiredColumns : List String :=
  ["Lead Name", "Contact Information", "Source", "Interest Level",
   "Status", "Assigned Salesperson"]

/-- The required columns absent from the header, in required-column
order (main.py line 278). -/
def missingOf (df : DataFrame) : List String :=
  requiredColumns.filter (fun c => ¬ df.columns.contains c)

/-! ## Errors and results -/

/-- The entries of the `errors` list of a `LoadResult`, structurally:
which failure, at which 1-based CSV position (`index + 2`). -/
inductive ImportError where
  | missingRequiredField (pos : Nat)
  | invalidEnumValue (pos : Nat)
  | databaseError
  deriving DecidableEq, Repr

/-- `HTTPException` details raised by `load_data_file`, structurally.
`wrapped` is the re-raise at main.py lines 360-362: any exception
escaping the parsing block is caught and wrapped into a fresh 400. -/
inductive Detail where
  | invalidFileType
  | emptyFile
  | missingColumns (cols : List String)
  | wrapped (inner : Detail)
  deriving DecidableEq, Repr

structure HTTPEx where
  status : Nat
  detail : Detail
  deriving DecidableEq, Repr

/-- `file.filename.endswith(".csv")` (main.py line 257): the filename's
character sequence ends with the four characters `.csv`. -/
def hasCsvExt (filename : String) : Bool :=
  ".csv".data.isSuffixOf filename.data

/-- The response body of a successful `/load_file` call. -/
structure LoadResult where
  filename : String
  rows_processed : Nat
  rows_imported : Nat
  rows_updated : Nat
  duplicates_found : Nat
  errors : List ImportError
  deriving DecidableEq, Repr

deriving instance DecidableEq for Except

/-! ## Salesperson resolution (main.py lines 282-306) -/

/-- `df['Assigned Salesperson'].unique()`: the distinct values in order
of first occurrence. -/
def uniqueAux : List String → List String → List String
  | [], _ => []
  | x :: xs, seen =>
    if seen.contains x then uniqueAux xs seen
    else x :: uniqueAux xs (x :: seen)

def uniqueList (xs : List String) : List String :=
  uniqueAux xs []

/-- The salesperson loop: for each unique name, skip the empty name,
else look the name up and reuse its id, or create a new record with a
placeholder credential and flush to obtain its id. Returns the
name-to-id mapping, the database after the flushes, and the list of
names actually looked-up-or-created (one resolution step each). -/
def resolveSalespersons : List String → DB → List (String × Nat) × DB × List String
  | [], db => ([], db, [])
  | n :: ns, db =>
    if n = "" then resolveSalespersons ns db
    else
      match db.salesPersons.find? (fun sp => sp.name = n) with
      | some sp =>
        let r := resolveSalespersons ns db
        ((n, sp.id) :: r.1, r.2.1, n :: r.2.2)
      | none =>
        let newId := db.nextSalesPersonId
        let db1 : DB :=
          { db with
            salesPersons := db.salesPersons ++ [⟨newId, n, "temporary_hash"⟩],
            nextSalesPersonId := db.nextSalesPersonId + 1 }
        let r := resolveSalespersons ns db1
        ((n, newId) :: r.1, r.2.1, n :: r.2.2)

/-! ## Row classification (main.py lines 312-355) -/

/-- The `lead_data` dict built for a row; `id` is absent (`none`) for
inserts and set to the matched Lead's id for updates. -/
structure LeadData where
  name : String
  contact_information : String
  source : Source
  interest : Interest
  status : Status
  assigned_salesperson_name : String
  salesperson_id : Option Nat
  id : Option Nat
  deriving DecidableEq, Repr

/-- The mutable state of the row loop: the two outgoing lists, the
error list, the duplicate counter, and the running contact set
(`existing_contacts`, seeded from the store and grown as new rows are
classified). -/
structure RowState where
  inserts : List LeadData
  updates : List LeadData
  errors : List ImportError
  dups : Nat
  existing : List String
  deriving DecidableEq, Repr

def mkLeadData (row : CsvRow) (src : Source) (int : Interest) (sta : Status)
    (spId : Option Nat) : LeadData :=
  { name := row.leadName
    contact_information := row.contactInformation
    source := src
    interest := int
    status := sta
    assigned_salesperson_name := row.assignedSalesperson
    salesperson_id := spId
    id := none }

/-- `salesperson_map.get(salesperson_name) if salesperson_name else None`
(main.py line 316). -/
def rowSpId (spMap : List (String × Nat)) (row : CsvRow) : Option Nat :=
  if row.assignedSalesperson = "" then none
  else spMap.lookup row.assignedSalesperson

/-- One iteration of the row loop. The `lead_data` dict literal
evaluates its values in order, so the three enum coercions run (and can
fail) before the required-field check; the required-field check is
Python truthiness on the raw strings (empty string only, no trimming);
a contact already in the running set counts as a duplicate and becomes
an update only when a persisted Lead actually matches. -/
def processRow (leads : List LeadRec) (spMap : List (String × Nat))
    (idx : Nat) (row : CsvRow) (st : RowState) : RowState :=
  let contact_info := row.contactInformation
  let spId : Option Nat := rowSpId spMap row
  match Source.ofString row.source with
  | none => { st with errors := st.errors ++ [.invalidEnumValue (idx + 2)] }
  | some src =>
    match Interest.ofString row.interestLevel with
    | none => { st with errors := st.errors ++ [.invalidEnumValue (idx + 2)] }
    | some int =>
      match Status.ofString row.status with
      | none => { st with errors := st.errors ++ [.invalidEnumValue (idx + 2)] }
      | some sta =>
        let lead_data := mkLeadData row src int sta spId
        if row.leadName = "" ∨ contact_info = "" then
          { st with errors := st.errors ++ [.missingRequiredField (idx + 2)] }
        else if st.existing.contains contact_info then
          let st1 := { st with dups := st.dups + 1 }
          match leads.find? (fun l => l.contact_information = contact_info) with
          | some l =>
            { st1 with updates := st1.updates ++ [{ lead_data with id := some l.id }] }
          | none => st1
        else
          { st with
            inserts := st.inserts ++ [lead_data],
            existing := st.existing ++ [contact_info] }

def processRows (leads : List LeadRec) (spMap : List (String × Nat)) :
    Nat → List CsvRow → RowState → RowState
  | _, [], st => st
  | idx, r :: rs, st =>
    processRows leads spMap (idx + 1) rs (processRow leads spMap idx r st)

def initState (leads : List LeadRec) : RowState :=
  { inserts := []
    updates := []
    errors := []
    dups := 0
    existing := leads.map (fun l => l.contact_information) }

/-! ## Commit step (main.py lines 367-394) -/

def LeadData.toRec (d : LeadData) (newId : Nat) : LeadRec :=
  { id := newId
    name := d.name
    contact_information := d.contact_information
    source := d.source
    interest := d.interest
    status := d.status
    assigned_salesperson_name := d.assigned_salesperson_name
    salesperson_id := d.salesperson_id }

/-- Bulk insert: each mapping without an id receives one from the store
counter. -/
def bulkInsert (db : DB) : List LeadData → DB
  | [] => db
  | d :: ds =>
    bulkInsert
      { db with
        leads := db.leads ++ [d.toRec db.nextLeadId],
        nextLeadId := db.nextLeadId + 1 } ds

/-- The per-row update `db.query(Lead).filter(Lead.id == lead_id)
.update(lead_data)` with the id popped from the payload. -/
def applyUpdate (db : DB) (d : LeadData) : DB :=
  match d.id with
  | none => db
  | some lid =>
    { db with
      leads := db.leads.map (fun l =>
        if l.id = lid then
          { l with
            name := d.name
            contact_information := d.contact_information
            source := d.source
            interest := d.interest
            status := d.status
            assigned_salesperson_name := d.assigned_salesperson_name
            salesperson_id := d.salesperson_id }
        else l) }

/-- The commit block: on success the inserts and updates are applied to
the session database `db` and the counts are the list lengths; on any
exception (`commitFails`) the whole transaction is rolled back to the
database `db0` from the start of the request, both counts are zeroed
and one summary error is appended. Returns
(database, rows_imported, rows_updated, appended errors). -/
def commitStep (db0 db : DB) (inserts updates : List LeadData)
    (commitFails : Bool) : DB × Nat × Nat × List ImportError :=
  if commitFails then (db0, 0, 0, [.databaseError])
  else
    let db1 := bulkInsert db inserts
    let db2 := updates.foldl applyUpdate db1
    (db2, inserts.length, updates.length, [])

/-! ## The import endpoint core (main.py lines 246-403)

`load_data_file` is modelled from the point where the upload has been
read and parsed: the filename (for the extension check), the parsed
dataframe, the request database state, and the commit-failure oracle.
It returns the HTTP outcome plus the database state after the request
(unchanged whenever the request aborts before commit). -/

/-- The salesperson-resolution pass of one request: resolve the unique
`Assigned Salesperson` values against `db0`. -/
def spResolution (df : DataFrame) (db0 : DB) :
    List (String × Nat) × DB × List String :=
  resolveSalespersons (uniqueList (df.rows.map (fun r => r.assignedSalesperson))) db0

/-- The classification pass of one request: the row loop run over every
data row, starting from the contact snapshot of the session database. -/
def classificationState (df : DataFrame) (db0 : DB) : RowState :=
  let r := spResolution df db0
  processRows r.2.1.leads r.1 0 df.rows (initState r.2.1.leads)

def load_data_file (filename : String) (df : DataFrame) (db0 : DB)
    (commitFails : Bool) : Except HTTPEx LoadResult × DB :=
  if ¬ hasCsvExt filename then
    (.error ⟨400, .invalidFileType⟩, db0)
  else
    let rows_processed := df.rows.length
    let missing := missingOf df
    if missing ≠ [] then
      (.error ⟨400, .wrapped (.missingColumns missing)⟩, db0)
    else
      let r := spResolution df db0
      let st := classificationState df db0
      let c := commitStep db0 r.2.1 st.inserts st.updates commitFails
      (.ok
        { filename := filename
          rows_processed := rows_processed
          rows_imported := c.2.1
          rows_updated := c.2.2.1
          duplicates_found := st.dups
          errors := st.errors ++ c.2.2.2 }, c.1)

/-! ## JWT token core (main.py lines 117-140)

Modelled from the spec: the `jose` JWT library itself is external to
the repository; spec section 4.1 fixes its contract — a token is a
signed assertion of claims, `validateToken` "returns None if signature
invalid, malformed, or expiry ≤ now" and never throws. Accordingly a
token value is either an undecodable string or a payload with an
attached signature; signing with the shared secret is an abstract MAC;
time is seconds since the epoch. -/

/-- The claims carried by a token: the optional subject and the expiry
set by `create_access_token`. -/
structure JwtPayload where
  sub : Option String
  exp : Nat
  deriving DecidableEq, Repr

/-- The abstract MAC over (secret, claims) used for signing. Injectivity
in the payload is irrelevant: only equality with the recomputed value
matters. -/
def macSig (secret : Nat) (p : JwtPayload) : Nat :=
  (secret + 1) * ((p.sub.map String.length).getD 0 + 2 * p.exp + 1)

/-- A token string, as seen by the decoder: either not decodable at
all, or a payload with the signature that came attached. -/
inductive Token where
  | malformed
  | signed (payload : JwtPayload) (sig : Nat)
  deriving DecidableEq, Repr

/-- Modelled from the spec: `jwt.encode(claims, secret)` signs the
payload with the shared secret. -/
def jwt_encode (p : JwtPayload) (secret : Nat) : Token :=
  .signed p (macSig secret p)

/-- Modelled from the spec: `jwt.decode(token, secret)` fails (raises
`JWTError`, here `none`) on an undecodable token, a signature that does
not match the shared secret, or expiry ≤ now. -/
def jwt_decode (t : Token) (secret : Nat) (now : Nat) : Option JwtPayload :=
  match t with
  | .malformed => none
  | .signed p s =>
    if s ≠ macSig secret p then none
    else if p.exp ≤ now then none
    else some p

def ACCESS_TOKEN_EXPIRE_MINUTES : Nat := 30

/-- `create_access_token` (main.py lines 117-126): copy the claims, set
`exp` to now plus the requested delta (default 30 minutes), sign. -/
def create_access_token (sub : Option String) (now : Nat)
    (expires_delta : Option Nat) (secret : Nat) : Token :=
  let expire :=
    match expires_delta with
    | some d => now + d
    | none => now + ACCESS_TOKEN_EXPIRE_MINUTES * 60
  jwt_encode ⟨sub, expire⟩ secret

/-- `verify_token` (main.py lines 128-140): decode; on `JWTError`
return `none`; on a payload without a `sub` claim return `none`; else
return the email and expiry. -/
def verify_token (t : Token) (secret : Nat) (now : Nat) :
    Option (String × Nat) :=
  match jwt_decode t secret now with
  | none => none
  | some p =>
    match p.sub with
    | none => none
    | some email => some (email, p.exp)

/-! ## Lemmas about the row loop -/

section RowLemmas

variable {leads : List LeadRec} {spMap : List (String × Nat)}
variable {idx : Nat} {row : CsvRow} {st : RowState}
variable {src : Source} {int : Interest} {sta : Status}

lemma processRow_invalidEnum
    (h : Source.ofString row.source = none ∨ Interest.ofString row.interestLevel = none ∨
      Status.ofString row.status = none) :
    processRow leads spMap idx row st =
      { st with errors := st.errors ++ [.invalidEnumValue (idx + 2)] } := by
  unfold processRow
  rcases h with h | h | h
  · simp only [h]
  · cases hs : Source.ofString row.source <;> simp only [h]
  · cases hs : Source.ofString row.source <;>
      cases hi : Interest.ofString row.interestLevel <;> simp only [h]

lemma processRow_missingField
    (hsrc : Source.ofString row.source = some src)
    (hint : Interest.ofString row.interestLevel = some int)
    (hsta : Status.ofString row.status = some sta)
    (hempty : row.leadName = "" ∨ row.contactInformation = "") :
    processRow leads spMap idx row st =
      { st with errors := st.errors ++ [.missingRequiredField (idx + 2)] } := by
  unfold processRow
  simp only [hsrc, hint, hsta]
  rw [if_pos hempty]

lemma processRow_dup_found {l : LeadRec}
    (hsrc : Source.ofString row.source = some src)
    (hint : Interest.ofString row.interestLevel = some int)
    (hsta : Status.ofString row.status = some sta)
    (hname : ¬ row.leadName = "") (hcontact : ¬ row.contactInformation = "")
    (hmem : row.contactInformation ∈ st.existing)
    (hfind : leads.find? (fun l2 => l2.contact_information = row.contactInformation) = some l) :
    processRow leads spMap idx row st =
      { st with
        dups := st.dups + 1,
        updates := st.updates ++
          [{ mkLeadData row src int sta (rowSpId spMap row) with id := some l.id }] } := by
  unfold processRow
  simp only [hsrc, hint, hsta]
  rw [if_neg (by simp [hname, hcontact]), if_pos (by simpa using hmem)]
  simp only [hfind]

lemma processRow_dup_notFound
    (hsrc : Source.ofString row.source = some src)
    (hint : Interest.ofString row.interestLevel = some int)
    (hsta : Status.ofString row.status = some sta)
    (hname : ¬ row.leadName = "") (hcontact : ¬ row.contactInformation = "")
    (hmem : row.contactInformation ∈ st.existing)
    (hfind : leads.find? (fun l2 => l2.contact_information = row.contactInformation) = none) :
    processRow leads spMap idx row st = { st with dups := st.dups + 1 } := by
  unfold processRow
  simp only [hsrc, hint, hsta]
  rw [if_neg (by simp [hname, hcontact]), if_pos (by simpa using hmem)]
  simp only [hfind]

lemma processRow_new
    (hsrc : Source.ofString row.source = some src)
    (hint : Interest.ofString row.interestLevel = some int)
    (hsta : Status.ofString row.status = some sta)
    (hname : ¬ row.leadName = "") (hcontact : ¬ row.contactInformation = "")
    (hmem : row.contactInformation ∉ st.existing) :
    processRow leads spMap idx row st =
      { st with
        inserts := st.inserts ++ [mkLeadData row src int sta (rowSpId spMap row)],
        existing := st.existing ++ [row.contactInformation] } := by
  unfold processRow
  simp only [hsrc, hint, hsta]
  rw [if_neg (by simp [hname, hcontact]), if_neg (by simpa using hmem)]

/-- Exhaustive case analysis of one row-loop iteration: an enum error,
a missing-field error, a silently counted duplicate, a duplicate turned
update, or a new insert. -/
lemma processRow_cases (leads : List LeadRec) (spMap : List (String × Nat))
    (idx : Nat) (row : CsvRow) (st : RowState) :
    processRow leads spMap idx row st =
        { st with errors := st.errors ++ [.invalidEnumValue (idx + 2)] }
    ∨ processRow leads spMap idx row st =
        { st with errors := st.errors ++ [.missingRequiredField (idx + 2)] }
    ∨ processRow leads spMap idx row st = { st with dups := st.dups + 1 }
    ∨ (∃ d, processRow leads spMap idx row st =
        { st with dups := st.dups + 1, updates := st.updates ++ [d] })
    ∨ (∃ d, processRow leads spMap idx row st =
        { st with inserts := st.inserts ++ [d],
                  existing := st.existing ++ [row.contactInformation] }) := by
  cases hsrc : Source.ofString row.source with
  | none => exact Or.inl (processRow_invalidEnum (Or.inl hsrc))
  | some src =>
  cases hint : Interest.ofString row.interestLevel with
  | none => exact Or.inl (processRow_invalidEnum (Or.inr (Or.inl hint)))
  | some int =>
  cases hsta : Status.ofString row.status with
  | none => exact Or.inl (processRow_invalidEnum (Or.inr (Or.inr hsta)))
  | some sta =>
  by_cases hempty : row.leadName = "" ∨ row.contactInformation = ""
  · exact Or.inr (Or.inl (processRow_missingField hsrc hint hsta hempty))
  · push_neg at hempty
    obtain ⟨hname, hcontact⟩ := hempty
    by_cases hmem : row.contactInformation ∈ st.existing
    · cases hfind : leads.find? (fun l2 => l2.contact_information = row.contactInformation) with
      | none =>
        exact Or.inr (Or.inr (Or.inl (processRow_dup_notFound hsrc hint hsta hname hcontact hmem hfind)))
      | some l =>
        exact Or.inr (Or.inr (Or.inr (Or.inl
          ⟨_, processRow_dup_found hsrc hint hsta hname hcontact hmem hfind⟩)))
    · exact Or.inr (Or.inr (Or.inr (Or.inr
        ⟨_, processRow_new hsrc hint hsta hname hcontact hmem⟩)))

/-- The duplicate counter goes up by exactly one on a valid row whose
contact is already in the running set, whether or not a persisted Lead
matches. -/
lemma processRow_dups_of_mem
    (hsrc : Source.ofString row.source = some src)
    (hint : Interest.ofString row.interestLevel = some int)
    (hsta : Status.ofString row.status = some sta)
    (hname : ¬ row.leadName = "") (hcontact : ¬ row.contactInformation = "")
    (hmem : row.contactInformation ∈ st.existing) :
    (processRow leads spMap idx row st).dups = st.dups + 1 := by
  cases hfind : leads.find? (fun l2 => l2.contact_information = row.contactInformation) with
  | none => rw [processRow_dup_notFound hsrc hint hsta hname hcontact hmem hfind]
  | some l => rw [processRow_dup_found hsrc hint hsta hname hcontact hmem hfind]

/-- The running contact set only grows. -/
lemma mem_existing_processRow {c : String} (h : c ∈ st.existing) :
    c ∈ (processRow leads spMap idx row st).existing := by
  rcases processRow_cases leads spMap idx row st with he | he | he | ⟨d, he⟩ | ⟨d, he⟩ <;>
    rw [he] <;> simp [h]

/-- After a valid row is processed, its contact is in the running set. -/
lemma contact_mem_existing_processRow
    (hsrc : Source.ofString row.source = some src)
    (hint : Interest.ofString row.interestLevel = some int)
    (hsta : Status.ofString row.status = some sta)
    (hname : ¬ row.leadName = "") (hcontact : ¬ row.contactInformation = "") :
    row.contactInformation ∈ (processRow leads spMap idx row st).existing := by
  by_cases hmem : row.contactInformation ∈ st.existing
  · exact mem_existing_processRow hmem
  · rw [processRow_new hsrc hint hsta hname hcontact hmem]
    simp

/-- The row loop never emits the commit-failure error. -/
lemma processRow_no_dbError (h : ImportError.databaseError ∉ st.errors) :
    ImportError.databaseError ∉ (processRow leads spMap idx row st).errors := by
  rcases processRow_cases leads spMap idx row st with he | he | he | ⟨d, he⟩ | ⟨d, he⟩ <;>
    rw [he] <;> simp [h]

end RowLemmas

section RowsLemmas

variable {leads : List LeadRec} {spMap : List (String × Nat)}

lemma processRows_append {idx : Nat} {xs ys : List CsvRow} {st : RowState} :
    processRows leads spMap idx (xs ++ ys) st =
      processRows leads spMap (idx + xs.length) ys (processRows leads spMap idx xs st) := by
  induction xs generalizing idx st with
  | nil => simp [processRows]
  | cons x xs ih =>
    simp only [List.cons_append, processRows, List.length_cons, List.append_eq]
    rw [ih]
    have h : idx + 1 + xs.length = idx + (xs.length + 1) := by omega
    rw [h]

lemma mem_existing_processRows (idx : Nat) (rs : List CsvRow) {st : RowState} {c : String}
    (h : c ∈ st.existing) :
    c ∈ (processRows leads spMap idx rs st).existing := by
  induction rs generalizing idx st with
  | nil => exact h
  | cons r rs ih => exact ih _ (mem_existing_processRow h)

lemma processRows_no_dbError {idx : Nat} {rs : List CsvRow} {st : RowState}
    (h : ImportError.databaseError ∉ st.errors) :
    ImportError.databaseError ∉ (processRows leads spMap idx rs st).errors := by
  induction rs generalizing idx st with
  | nil => exact h
  | cons r rs ih => exact ih (processRow_no_dbError h)

end RowsLemmas


/-! ## Lemmas about salesperson resolution -/

lemma mem_uniqueAux {xs seen : List String} {a : String} :
    a ∈ uniqueAux xs seen ↔ a ∈ xs ∧ a ∉ seen := by
  induction xs generalizing seen with
  | nil => simp [uniqueAux]
  | cons x xs ih =>
    by_cases hc : seen.contains x
    · have hx : x ∈ seen := by simpa using hc
      rw [uniqueAux, if_pos hc, ih]
      constructor
      · rintro ⟨h1, h2⟩
        exact ⟨List.mem_cons_of_mem _ h1, h2⟩
      · rintro ⟨h1, h2⟩
        rcases List.mem_cons.mp h1 with rfl | h1
        · exact absurd hx h2
        · exact ⟨h1, h2⟩
    · have hx : x ∉ seen := by simpa using hc
      rw [uniqueAux, if_neg hc]
      constructor
      · intro h
        rcases List.mem_cons.mp h with rfl | h
        · exact ⟨List.mem_cons_self _ _, hx⟩
        · obtain ⟨h1, h2⟩ := ih.mp h
          refine ⟨List.mem_cons_of_mem _ h1, fun hs => h2 (List.mem_cons_of_mem _ hs)⟩
      · rintro ⟨h1, h2⟩
        by_cases hax : a = x
        · exact hax ▸ List.mem_cons_self _ _
        · rcases List.mem_cons.mp h1 with rfl | h1
          · exact absurd rfl hax
          · exact List.mem_cons_of_mem _ (ih.mpr ⟨h1, by simp [hax, h2]⟩)

lemma nodup_uniqueAux {xs seen : List String} : (uniqueAux xs seen).Nodup := by
  induction xs generalizing seen with
  | nil => simp [uniqueAux]
  | cons x xs ih =>
    by_cases hc : seen.contains x
    · rw [uniqueAux, if_pos hc]; exact ih
    · rw [uniqueAux, if_neg hc]
      refine List.nodup_cons.mpr ⟨fun h => ?_, ih⟩
      exact (mem_uniqueAux.mp h).2 (List.mem_cons_self _ _)

lemma mem_uniqueList {xs : List String} {a : String} : a ∈ uniqueList xs ↔ a ∈ xs := by
  simp [uniqueList, mem_uniqueAux]

lemma nodup_uniqueList {xs : List String} : (uniqueList xs).Nodup := nodup_uniqueAux

/-- The resolution log is exactly the non-empty input names, in order:
the loop body runs once per non-empty name of its input. -/
lemma resolveSalespersons_ops (ns : List String) (db : DB) :
    (resolveSalespersons ns db).2.2 = ns.filter (fun n => n ≠ "") := by
  induction ns generalizing db with
  | nil => simp [resolveSalespersons]
  | cons n ns ih =>
    by_cases hn : n = ""
    · subst hn
      rw [resolveSalespersons]
      simp [ih]
    · rw [resolveSalespersons, if_neg hn]
      cases hf : db.salesPersons.find? (fun sp => sp.name = n) with
      | some sp => simp [ih, hn]
      | none => simp [ih, hn]

/-- Every non-empty name of the input is covered by the returned map. -/
lemma resolveSalespersons_lookup (ns : List String) (db : DB) {n : String}
    (hn : n ≠ "") (hmem : n ∈ ns) :
    ∃ i, (resolveSalespersons ns db).1.lookup n = some i := by
  induction ns generalizing db with
  | nil => cases hmem
  | cons m ns ih =>
    by_cases hm : m = ""
    · subst hm
      rw [resolveSalespersons]
      simp only [if_pos rfl]
      rcases List.mem_cons.mp hmem with rfl | hmem
      · exact absurd rfl hn
      · exact ih db hmem
    · rw [resolveSalespersons, if_neg hm]
      cases hf : db.salesPersons.find? (fun sp => sp.name = m) with
      | some sp =>
        by_cases hnm : n = m
        · subst hnm
          exact ⟨sp.id, by simp [List.lookup]⟩
        · rcases List.mem_cons.mp hmem with rfl | hmem
          · exact absurd rfl hnm
          · obtain ⟨i, hi⟩ := ih db hmem
            have hb : (n == m) = false := beq_eq_false_iff_ne.mpr hnm
            exact ⟨i, by simp [List.lookup, hb, hi]⟩
      | none =>
        by_cases hnm : n = m
        · subst hnm
          exact ⟨db.nextSalesPersonId, by simp [List.lookup]⟩
        · rcases List.mem_cons.mp hmem with rfl | hmem
          · exact absurd rfl hnm
          · obtain ⟨i, hi⟩ := ih
              { db with
                salesPersons := db.salesPersons ++
                  [⟨db.nextSalesPersonId, m, "temporary_hash"⟩],
                nextSalesPersonId := db.nextSalesPersonId + 1 } hmem
            have hb : (n == m) = false := beq_eq_false_iff_ne.mpr hnm
            exact ⟨i, by simp [List.lookup, hb, hi]⟩


/-! ## Characterizations of the endpoint outcomes -/

section LoadLemmas

variable {filename : String} {df : DataFrame} {db0 : DB} {commitFails : Bool}

lemma load_data_file_missingColumns
    (h1 : hasCsvExt filename = true) (h2 : missingOf df ≠ []) :
    load_data_file filename df db0 commitFails =
      (.error ⟨400, .wrapped (.missingColumns (missingOf df))⟩, db0) := by
  simp [load_data_file, h1, h2]

lemma load_data_file_commitFail
    (h1 : hasCsvExt filename = true) (h2 : missingOf df = []) :
    load_data_file filename df db0 true =
      (.ok
        { filename := filename
          rows_processed := df.rows.length
          rows_imported := 0
          rows_updated := 0
          duplicates_found := (classificationState df db0).dups
          errors := (classificationState df db0).errors ++ [.databaseError] },
       db0) := by
  simp [load_data_file, h1, h2, commitStep]

lemma load_data_file_commitOk
    (h1 : hasCsvExt filename = true) (h2 : missingOf df = []) :
    load_data_file filename df db0 false =
      (.ok
        { filename := filename
          rows_processed := df.rows.length
          rows_imported := (classificationState df db0).inserts.length
          rows_updated := (classificationState df db0).updates.length
          duplicates_found := (classificationState df db0).dups
          errors := (classificationState df db0).errors },
       (classificationState df db0).updates.foldl applyUpdate
         (bulkInsert (spResolution df db0).2.1 (classificationState df db0).inserts)) := by
  simp [load_data_file, h1, h2, commitStep]

end LoadLemmas


/-! ## Claim theorems -/

/-- Claim C1, amended: a row whose name or contact_information is the
empty string (no whitespace trimming) is rejected with a
missing-required-field error provided all three enum values are valid;
when any enum value is invalid the row is instead rejected with an
invalid-enum error, and the missing-field check is not reached, because
the `lead_data` dict construction coerces the enums first. -/
theorem claim_C1 (leads : List LeadRec) (spMap : List (String × Nat)) (idx : Nat)
    (row : CsvRow) (st : RowState) :
    (∀ src int sta,
      Source.ofString row.source = some src →
      Interest.ofString row.interestLevel = some int →
      Status.ofString row.status = some sta →
      (row.leadName = "" ∨ row.contactInformation = "") →
      processRow leads spMap idx row st =
        { st with errors := st.errors ++ [.missingRequiredField (idx + 2)] })
    ∧ ((Source.ofString row.source = none ∨ Interest.ofString row.interestLevel = none ∨
        Status.ofString row.status = none) →
      processRow leads spMap idx row st =
        { st with errors := st.errors ++ [.invalidEnumValue (idx + 2)] }) :=
  ⟨fun _ _ _ hs hi ht he => processRow_missingField hs hi ht he,
   fun h => processRow_invalidEnum h⟩

/-- Claim C1 witness: a row with an empty name and valid enums is
rejected with the missing-field error; a row with an invalid Source is
rejected with the enum error. -/
theorem claim_C1_witness :
    processRow [] [] 0 ⟨"", "c", "Referral", "Low", "New", ""⟩ (initState []) =
      { inserts := [], updates := [], errors := [.missingRequiredField 2],
        dups := 0, existing := [] }
    ∧ processRow [] [] 0 ⟨"x", "c", "Bogus", "Low", "New", ""⟩ (initState []) =
      { inserts := [], updates := [], errors := [.invalidEnumValue 2],
        dups := 0, existing := [] } := by
  constructor
  · have h := (claim_C1 [] [] 0 ⟨"", "c", "Referral", "Low", "New", ""⟩ (initState [])).1
      Source.REFERRAL Interest.LOW Status.NEW rfl rfl rfl (Or.inl rfl)
    simpa [initState] using h
  · have h := (claim_C1 [] [] 0 ⟨"x", "c", "Bogus", "Low", "New", ""⟩ (initState [])).2
      (Or.inl rfl)
    simpa [initState] using h

/-- Claim C1 counterexample to the original statement: a row with an
empty name but an invalid Source enum gets only the invalid-enum error,
so the missing-field rejection does not happen regardless of enum
validity; and a row whose name is a single space is not rejected at all
(no whitespace trimming), ending up in the insert list. -/
theorem claim_C1_counterexample :
    (processRow [] [] 0 ⟨"", "c1", "Bogus", "Low", "New", ""⟩ (initState [])).errors
        = [ImportError.invalidEnumValue 2]
    ∧ (processRow [] [] 0 ⟨" ", "c2", "Referral", "Low", "New", ""⟩ (initState [])).errors = []
    ∧ (processRow [] [] 0 ⟨" ", "c2", "Referral", "Low", "New", ""⟩
        (initState [])).inserts.length = 1 := by
  decide

/-- Claim C6: a token issued for a subject at time `t` validates to
that subject (with its expiry) at every `now` strictly before
`t + TTL`; it fails to validate once `now` reaches the expiry, and a
token whose signature is not the MAC of its payload under the shared
secret fails to validate at any time. -/
theorem claim_C6 (sub : String) (t : Nat) (delta : Option Nat) (secret now : Nat) :
    (now < t + delta.getD (ACCESS_TOKEN_EXPIRE_MINUTES * 60) →
      verify_token (create_access_token (some sub) t delta secret) secret now =
        some (sub, t + delta.getD (ACCESS_TOKEN_EXPIRE_MINUTES * 60)))
    ∧ (t + delta.getD (ACCESS_TOKEN_EXPIRE_MINUTES * 60) ≤ now →
      verify_token (create_access_token (some sub) t delta secret) secret now = none)
    ∧ (∀ s, s ≠ macSig secret ⟨some sub, t + delta.getD (ACCESS_TOKEN_EXPIRE_MINUTES * 60)⟩ →
      verify_token
        (.signed ⟨some sub, t + delta.getD (ACCESS_TOKEN_EXPIRE_MINUTES * 60)⟩ s)
        secret now = none) := by
  have hE : create_access_token (some sub) t delta secret =
      Token.signed ⟨some sub, t + delta.getD (ACCESS_TOKEN_EXPIRE_MINUTES * 60)⟩
        (macSig secret ⟨some sub, t + delta.getD (ACCESS_TOKEN_EXPIRE_MINUTES * 60)⟩) := by
    cases delta <;> rfl
  refine ⟨fun h => ?_, fun h => ?_, fun s hs => ?_⟩
  · rw [hE]
    simp only [verify_token, jwt_decode]
    rw [if_neg (by simp), if_neg (by omega)]
  · rw [hE]
    simp only [verify_token, jwt_decode]
    rw [if_neg (by simp), if_pos h]
  · simp only [verify_token, jwt_decode]
    rw [if_pos hs]

/-- Claim C6 witness: a token issued at 100 with a 60-second TTL
validates at 159, fails at 160, and fails with a corrupted signature. -/
theorem claim_C6_witness :
    verify_token (create_access_token (some "a") 100 (some 60) 7) 7 159 = some ("a", 160)
    ∧ verify_token (create_access_token (some "a") 100 (some 60) 7) 7 160 = none
    ∧ verify_token (.signed ⟨some "a", 160⟩ (macSig 7 ⟨some "a", 160⟩ + 1)) 7 159 = none :=
  ⟨(claim_C6 "a" 100 (some 60) 7 159).1 (by decide),
   (claim_C6 "a" 100 (some 60) 7 160).2.1 (by decide),
   (claim_C6 "a" 100 (some 60) 7 159).2.2 _ (by norm_num)⟩

/-- Claim C7, amended: token validation is total by construction and
returns the failure variant exactly when the token is malformed, the
signature is not the MAC of the payload under the shared secret, the
expiry is at or before `now`, or the payload carries no subject claim
(the `sub is None` check of `verify_token`, which the original claim
omits). -/
theorem claim_C7 :
    (∀ secret now, verify_token .malformed secret now = none)
    ∧ ∀ (p : JwtPayload) (s secret now : Nat),
        verify_token (.signed p s) secret now = none ↔
          s ≠ macSig secret p ∨ p.exp ≤ now ∨ p.sub = none := by
  refine ⟨fun secret now => rfl, fun p s secret now => ?_⟩
  simp only [verify_token, jwt_decode]
  by_cases hs : s = macSig secret p
  · subst hs
    rw [if_neg (by simp)]
    by_cases he : p.exp ≤ now
    · rw [if_pos he]
      simp [he]
    · rw [if_neg he]
      cases hsub : p.sub with
      | none => simp [he, hsub]
      | some e => simp [he, hsub]
  · rw [if_pos hs]
    simp [hs]

/-- Claim C7 counterexample to the original statement: a well-signed,
unexpired token that merely lacks the subject claim is also rejected,
so "None exactly when signature invalid, malformed, or expired" is
false as stated. -/
theorem claim_C7_counterexample :
    verify_token (Token.signed ⟨none, 100⟩ (macSig 7 ⟨none, 100⟩)) 7 0 = none
    ∧ Token.signed ⟨none, 100⟩ (macSig 7 ⟨none, 100⟩) ≠ Token.malformed
    ∧ ¬ (100 ≤ 0) := by
  decide


/-- Claim C2: when the commit step fails, the whole transaction is
rolled back (the request leaves the database exactly as it found it,
salesperson flushes included), the result reports zero imported and
zero updated rows, and the error list is the row-level errors collected
during classification followed by exactly one summary database error
(the row-level list itself never contains that summary error). -/
theorem claim_C2 (filename : String) (df : DataFrame) (db0 : DB)
    (h1 : hasCsvExt filename = true) (h2 : missingOf df = []) :
    load_data_file filename df db0 true =
      (.ok
        { filename := filename
          rows_processed := df.rows.length
          rows_imported := 0
          rows_updated := 0
          duplicates_found := (classificationState df db0).dups
          errors := (classificationState df db0).errors ++ [.databaseError] },
       db0)
    ∧ ImportError.databaseError ∉ (classificationState df db0).errors := by
  refine ⟨load_data_file_commitFail h1 h2, ?_⟩
  simp only [classificationState]
  exact processRows_no_dbError (by simp [initState])

/-- Claim C2 witness: a one-row file with a valid row under a failing
commit yields zero counts, the lone database error, and an untouched
database. -/
theorem claim_C2_witness :
    load_data_file "x.csv" ⟨requiredColumns, [⟨"Al", "c", "Referral", "Low", "New", ""⟩]⟩
        ⟨[], [], 1, 1⟩ true =
      (.ok { filename := "x.csv", rows_processed := 1, rows_imported := 0, rows_updated := 0,
             duplicates_found := 0, errors := [.databaseError] }, ⟨[], [], 1, 1⟩)
    ∧ ImportError.databaseError ∉
        (classificationState ⟨requiredColumns, [⟨"Al", "c", "Referral", "Low", "New", ""⟩]⟩
          ⟨[], [], 1, 1⟩).errors := by
  have h := claim_C2 "x.csv" ⟨requiredColumns, [⟨"Al", "c", "Referral", "Low", "New", ""⟩]⟩
    ⟨[], [], 1, 1⟩ (by decide) (by decide)
  exact ⟨h.1, h.2⟩

/-- Claim C4: whenever the import returns a success result, its
`rows_processed` equals the number of data rows of the parsed file,
whatever happened to the individual rows or the commit. -/
theorem claim_C4 (filename : String) (df : DataFrame) (db0 : DB) (commitFails : Bool)
    (res : LoadResult) (dbOut : DB)
    (h : load_data_file filename df db0 commitFails = (.ok res, dbOut)) :
    res.rows_processed = df.rows.length := by
  by_cases h1 : hasCsvExt filename = true
  · by_cases h2 : missingOf df = []
    · cases commitFails
      · rw [load_data_file_commitOk h1 h2] at h
        injection h with hfst hsnd
        injection hfst with hres
        rw [← hres]
      · rw [load_data_file_commitFail h1 h2] at h
        injection h with hfst hsnd
        injection hfst with hres
        rw [← hres]
    · rw [load_data_file_missingColumns h1 h2] at h
      injection h with hfst hsnd
      exact absurd hfst (by simp)
  · rw [Bool.not_eq_true] at h1
    unfold load_data_file at h
    rw [if_pos (by simp [h1])] at h
    injection h with hfst hsnd
    exact absurd hfst (by simp)

/-- Claim C4 witness: a two-row file, one row of which is an in-file
duplicate, still reports two processed rows. -/
theorem claim_C4_witness :
    (⟨"x.csv", 2, 1, 0, 1, []⟩ : LoadResult).rows_processed =
      (⟨requiredColumns,
        [⟨"Al", "c3", "Referral", "Low", "New", ""⟩,
         ⟨"Bo", "c3", "Website", "High", "New", ""⟩]⟩ : DataFrame).rows.length :=
  claim_C4 "x.csv"
    ⟨requiredColumns,
      [⟨"Al", "c3", "Referral", "Low", "New", ""⟩,
       ⟨"Bo", "c3", "Website", "High", "New", ""⟩]⟩
    ⟨[], [], 1, 1⟩ false
    ⟨"x.csv", 2, 1, 0, 1, []⟩
    ⟨[⟨1, "Al", "c3", Source.REFERRAL, Interest.LOW, Status.NEW, "", none⟩], [], 2, 1⟩
    (by decide)

/-- Claim C9: a CSV upload whose header lacks required columns is
answered with status 400 whose detail carries exactly the list of
missing required column names (wrapped by the generic re-raise of the
parsing block), and the database is left untouched. -/
theorem claim_C9 (filename : String) (df : DataFrame) (db0 : DB) (commitFails : Bool)
    (h1 : hasCsvExt filename = true) (h2 : missingOf df ≠ []) :
    load_data_file filename df db0 commitFails =
      (.error ⟨400, .wrapped (.missingColumns (missingOf df))⟩, db0)
    ∧ ∀ c, c ∈ missingOf df ↔ c ∈ requiredColumns ∧ ¬ df.columns.contains c = true := by
  refine ⟨load_data_file_missingColumns h1 h2, fun c => ?_⟩
  simp [missingOf, List.mem_filter]

/-- Claim C9 witness: a header with only `Lead Name` is rejected with
the five other required column names, and the database is unchanged. -/
theorem claim_C9_witness :
    load_data_file "x.csv" ⟨["Lead Name"], []⟩ ⟨[], [], 1, 1⟩ false =
      (.error ⟨400, .wrapped (.missingColumns
        ["Contact Information", "Source", "Interest Level", "Status",
         "Assigned Salesperson"])⟩, ⟨[], [], 1, 1⟩)
    ∧ ("Source" ∈ missingOf ⟨["Lead Name"], []⟩ ↔
        "Source" ∈ requiredColumns ∧ ¬ (["Lead Name"].contains "Source") = true) := by
  have h := claim_C9 "x.csv" ⟨["Lead Name"], []⟩ ⟨[], [], 1, 1⟩ false (by decide) (by decide)
  exact ⟨h.1, h.2 "Source"⟩


/-- Claim C3: a valid row whose contact matches a persisted Lead
(provided the running contact set covers the store snapshot, as it does
from initialization on) is appended to the update list carrying that
Lead's id, and the insert list is left untouched. -/
theorem claim_C3 (leads : List LeadRec) (spMap : List (String × Nat)) (idx : Nat)
    (row : CsvRow) (st : RowState) (l : LeadRec)
    (src : Source) (int : Interest) (sta : Status)
    (hsrc : Source.ofString row.source = some src)
    (hint : Interest.ofString row.interestLevel = some int)
    (hsta : Status.ofString row.status = some sta)
    (hname : ¬ row.leadName = "") (hcontact : ¬ row.contactInformation = "")
    (hsub : ∀ c ∈ leads.map (fun l2 => l2.contact_information), c ∈ st.existing)
    (hfind : leads.find? (fun l2 => l2.contact_information = row.contactInformation) = some l) :
    (processRow leads spMap idx row st).inserts = st.inserts
    ∧ (processRow leads spMap idx row st).updates =
        st.updates ++
          [{ mkLeadData row src int sta (rowSpId spMap row) with id := some l.id }] := by
  have hl : l ∈ leads := List.mem_of_find?_eq_some hfind
  have hlc : l.contact_information = row.contactInformation := by
    have h := List.find?_some hfind
    simpa using h
  have hmem : row.contactInformation ∈ st.existing := by
    refine hsub _ ?_
    rw [← hlc]
    exact List.mem_map_of_mem _ hl
  rw [processRow_dup_found hsrc hint hsta hname hcontact hmem hfind]
  exact ⟨rfl, rfl⟩

/-- Claim C3 witness: a row matching the one persisted Lead (id 5)
becomes an update carrying id 5 and no insert. -/
theorem claim_C3_witness :
    (processRow [⟨5, "Old", "c", .REFERRAL, .LOW, .NEW, "", none⟩] [] 0
        ⟨"Al", "c", "Website", "High", "Contacted", ""⟩
        (initState [⟨5, "Old", "c", .REFERRAL, .LOW, .NEW, "", none⟩])).inserts = []
    ∧ (processRow [⟨5, "Old", "c", .REFERRAL, .LOW, .NEW, "", none⟩] [] 0
        ⟨"Al", "c", "Website", "High", "Contacted", ""⟩
        (initState [⟨5, "Old", "c", .REFERRAL, .LOW, .NEW, "", none⟩])).updates =
      [{ mkLeadData ⟨"Al", "c", "Website", "High", "Contacted", ""⟩
          .WEBSITE .HIGH .CONTACTED
          (rowSpId [] ⟨"Al", "c", "Website", "High", "Contacted", ""⟩) with id := some 5 }] := by
  have h := claim_C3 [⟨5, "Old", "c", .REFERRAL, .LOW, .NEW, "", none⟩] [] 0
    ⟨"Al", "c", "Website", "High", "Contacted", ""⟩
    (initState [⟨5, "Old", "c", .REFERRAL, .LOW, .NEW, "", none⟩])
    ⟨5, "Old", "c", .REFERRAL, .LOW, .NEW, "", none⟩
    .WEBSITE .HIGH .CONTACTED rfl rfl rfl (by decide) (by decide) (by decide) (by decide)
  exact ⟨h.1, h.2⟩

/-- Claim C5: the salesperson-resolution pass performs one
lookup-or-create per distinct non-empty name of the batch (its
operation log is the deduplicated name list without the empty name, so
a name on N rows is resolved exactly once); every non-empty name that
occurs on some row maps to a single id that all rows carrying that name
receive, and a row with an empty name receives a null id. -/
theorem claim_C5 (df : DataFrame) (db0 : DB) :
    (spResolution df db0).2.2 =
        (uniqueList (df.rows.map (fun r => r.assignedSalesperson))).filter (fun n => n ≠ "")
    ∧ (∀ n : String, n ≠ "" → n ∈ df.rows.map (fun r => r.assignedSalesperson) →
        ((spResolution df db0).2.2.count n = 1
          ∧ ∃ i, ∀ row ∈ df.rows, row.assignedSalesperson = n →
              rowSpId (spResolution df db0).1 row = some i))
    ∧ (∀ row : CsvRow, row.assignedSalesperson = "" →
        rowSpId (spResolution df db0).1 row = none) := by
  refine ⟨resolveSalespersons_ops _ _, fun n hn hmem => ⟨?_, ?_⟩, fun row h0 => ?_⟩
  · have hops : (spResolution df db0).2.2 =
        (uniqueList (df.rows.map (fun r => r.assignedSalesperson))).filter (fun n => n ≠ "") :=
      resolveSalespersons_ops _ _
    rw [hops]
    apply List.count_eq_one_of_mem
    · exact nodup_uniqueList.filter _
    · rw [List.mem_filter]
      exact ⟨mem_uniqueList.mpr hmem, by simp [hn]⟩
  · obtain ⟨i, hi⟩ := resolveSalespersons_lookup
      (uniqueList (df.rows.map (fun r => r.assignedSalesperson))) db0 hn
      (mem_uniqueList.mpr hmem)
    refine ⟨i, fun row hrow hname => ?_⟩
    rw [rowSpId, if_neg (by rw [hname]; exact hn), hname]
    exact hi
  · rw [rowSpId, if_pos h0]

/-- Claim C5 witness: with `Sue` on two rows and an empty name on the
third, `Sue` is resolved exactly once, both `Sue` rows get the same id,
and the empty-name row gets a null id. -/
theorem claim_C5_witness :
    (spResolution
        ⟨requiredColumns,
         [⟨"Al", "c1", "Referral", "Low", "New", "Sue"⟩,
          ⟨"Bo", "c2", "Referral", "Low", "New", "Sue"⟩,
          ⟨"Cy", "c3", "Referral", "Low", "New", ""⟩]⟩ ⟨[], [], 1, 1⟩).2.2.count "Sue" = 1
    ∧ rowSpId (spResolution
        ⟨requiredColumns,
         [⟨"Al", "c1", "Referral", "Low", "New", "Sue"⟩,
          ⟨"Bo", "c2", "Referral", "Low", "New", "Sue"⟩,
          ⟨"Cy", "c3", "Referral", "Low", "New", ""⟩]⟩ ⟨[], [], 1, 1⟩).1
        ⟨"Al", "c1", "Referral", "Low", "New", "Sue"⟩ =
      rowSpId (spResolution
        ⟨requiredColumns,
         [⟨"Al", "c1", "Referral", "Low", "New", "Sue"⟩,
          ⟨"Bo", "c2", "Referral", "Low", "New", "Sue"⟩,
          ⟨"Cy", "c3", "Referral", "Low", "New", ""⟩]⟩ ⟨[], [], 1, 1⟩).1
        ⟨"Bo", "c2", "Referral", "Low", "New", "Sue"⟩
    ∧ rowSpId (spResolution
        ⟨requiredColumns,
         [⟨"Al", "c1", "Referral", "Low", "New", "Sue"⟩,
          ⟨"Bo", "c2", "Referral", "Low", "New", "Sue"⟩,
          ⟨"Cy", "c3", "Referral", "Low", "New", ""⟩]⟩ ⟨[], [], 1, 1⟩).1
        ⟨"Cy", "c3", "Referral", "Low", "New", ""⟩ = none := by
  have h := claim_C5
    ⟨requiredColumns,
     [⟨"Al", "c1", "Referral", "Low", "New", "Sue"⟩,
      ⟨"Bo", "c2", "Referral", "Low", "New", "Sue"⟩,
      ⟨"Cy", "c3", "Referral", "Low", "New", ""⟩]⟩ ⟨[], [], 1, 1⟩
  obtain ⟨hc, hsame⟩ := h.2.1 "Sue" (by decide) (by decide)
  obtain ⟨i, hi⟩ := hsame
  refine ⟨hc, ?_, h.2.2 ⟨"Cy", "c3", "Referral", "Low", "New", ""⟩ rfl⟩
  rw [hi ⟨"Al", "c1", "Referral", "Low", "New", "Sue"⟩ (by decide) rfl,
      hi ⟨"Bo", "c2", "Referral", "Low", "New", "Sue"⟩ (by decide) rfl]

/-- Claim C8: in one file, a valid row and any valid later row sharing
its contact value: the earlier row is either counted as a duplicate (if
its contact was already known, in particular persisted) or classified
new, and the later row is always counted as a duplicate, whatever rows
come before, between, or after. -/
theorem claim_C8 (leads : List LeadRec) (spMap : List (String × Nat))
    (rows1 rows2 : List CsvRow) (rI rJ : CsvRow) (idxJ : Nat)
    (stA stI stB : RowState)
    (srcI : Source) (intI : Interest) (staI : Status)
    (srcJ : Source) (intJ : Interest) (staJ : Status)
    (hIs : Source.ofString rI.source = some srcI)
    (hIi : Interest.ofString rI.interestLevel = some intI)
    (hIt : Status.ofString rI.status = some staI)
    (hIn : ¬ rI.leadName = "") (hIc : ¬ rI.contactInformation = "")
    (hJs : Source.ofString rJ.source = some srcJ)
    (hJi : Interest.ofString rJ.interestLevel = some intJ)
    (hJt : Status.ofString rJ.status = some staJ)
    (hJn : ¬ rJ.leadName = "") (hJc : ¬ rJ.contactInformation = "")
    (hcc : rJ.contactInformation = rI.contactInformation)
    (hA : processRows leads spMap 0 rows1 (initState leads) = stA)
    (hI : processRow leads spMap rows1.length rI stA = stI)
    (hB : processRows leads spMap (rows1.length + 1) rows2 stI = stB) :
    ((rI.contactInformation ∈ stA.existing ∧ stI.dups = stA.dups + 1)
      ∨ (rI.contactInformation ∉ stA.existing ∧
          stI.inserts = stA.inserts ++ [mkLeadData rI srcI intI staI (rowSpId spMap rI)]))
    ∧ (processRow leads spMap idxJ rJ stB).dups = stB.dups + 1 := by
  subst hA
  subst hI
  subst hB
  constructor
  · by_cases hmem :
        rI.contactInformation ∈ (processRows leads spMap 0 rows1 (initState leads)).existing
    · exact Or.inl ⟨hmem, processRow_dups_of_mem hIs hIi hIt hIn hIc hmem⟩
    · refine Or.inr ⟨hmem, ?_⟩
      rw [processRow_new hIs hIi hIt hIn hIc hmem]
  · have h1 : rI.contactInformation ∈
        (processRow leads spMap rows1.length rI
          (processRows leads spMap 0 rows1 (initState leads))).existing :=
      contact_mem_existing_processRow hIs hIi hIt hIn hIc
    have h2 := @mem_existing_processRows leads spMap (rows1.length + 1) rows2 _ _ h1
    exact processRow_dups_of_mem hJs hJi hJt hJn hJc (by rw [hcc]; exact h2)

/-- Claim C8 witness: the same valid row twice in an otherwise empty
file against an empty store: the first is classified new, the second
bumps the duplicate counter. -/
theorem claim_C8_witness :
    (("c" ∈ (initState ([] : List LeadRec)).existing ∧
        (processRow [] [] 0 ⟨"A", "c", "Referral", "Low", "New", ""⟩
          (initState [])).dups = (initState ([] : List LeadRec)).dups + 1)
      ∨ ("c" ∉ (initState ([] : List LeadRec)).existing ∧
        (processRow [] [] 0 ⟨"A", "c", "Referral", "Low", "New", ""⟩
          (initState [])).inserts =
          (initState ([] : List LeadRec)).inserts ++
            [mkLeadData ⟨"A", "c", "Referral", "Low", "New", ""⟩ .REFERRAL .LOW .NEW
              (rowSpId [] ⟨"A", "c", "Referral", "Low", "New", ""⟩)]))
    ∧ (processRow [] [] 9 ⟨"A", "c", "Referral", "Low", "New", ""⟩
        (processRows [] [] 1 []
          (processRow [] [] 0 ⟨"A", "c", "Referral", "Low", "New", ""⟩
            (initState [])))).dups =
      (processRows [] [] 1 []
        (processRow [] [] 0 ⟨"A", "c", "Referral", "Low", "New", ""⟩
          (initState []))).dups + 1 :=
  claim_C8 [] [] [] [] ⟨"A", "c", "Referral", "Low", "New", ""⟩
    ⟨"A", "c", "Referral", "Low", "New", ""⟩ 9 (initState [])
    (processRow [] [] 0 ⟨"A", "c", "Referral", "Low", "New", ""⟩ (initState []))
    (processRows [] [] 1 []
      (processRow [] [] 0 ⟨"A", "c", "Referral", "Low", "New", ""⟩ (initState [])))
    .REFERRAL .LOW .NEW .REFERRAL .LOW .NEW rfl rfl rfl (by decide) (by decide)
    rfl rfl rfl (by decide) (by decide) rfl rfl rfl rfl

/-- Claim C10 (implicit behavior): a valid row whose contact is in the
running set but matches no persisted Lead only bumps the duplicate
counter — it joins neither the insert, update, nor error list; and on a
concrete two-row file whose second row repeats the first row's contact,
the import succeeds with rows_imported + rows_updated + |errors| = 1,
strictly less than rows_processed = 2. -/
theorem claim_C10 (leads : List LeadRec) (spMap : List (String × Nat)) (idx : Nat)
    (row : CsvRow) (st : RowState) (src : Source) (int : Interest) (sta : Status)
    (hsrc : Source.ofString row.source = some src)
    (hint : Interest.ofString row.interestLevel = some int)
    (hsta : Status.ofString row.status = some sta)
    (hname : ¬ row.leadName = "") (hcontact : ¬ row.contactInformation = "")
    (hmem : row.contactInformation ∈ st.existing)
    (hfind : leads.find? (fun l2 => l2.contact_information = row.contactInformation) = none) :
    processRow leads spMap idx row st = { st with dups := st.dups + 1 }
    ∧ (load_data_file "leads.csv"
        ⟨requiredColumns,
         [⟨"Al", "c3", "Referral", "Low", "New", ""⟩,
          ⟨"Bo", "c3", "Website", "High", "New", ""⟩]⟩ ⟨[], [], 1, 1⟩ false).1 =
      .ok ⟨"leads.csv", 2, 1, 0, 1, []⟩
    ∧ (1 : Nat) + 0 + 0 < 2 := by
  refine ⟨processRow_dup_notFound hsrc hint hsta hname hcontact hmem hfind, ?_, by norm_num⟩
  decide

/-- Claim C10 witness: the silently dropped duplicate at a concrete
state, plus the concrete two-row import. -/
theorem claim_C10_witness :
    processRow [] [] 1 ⟨"Bo", "c3", "Website", "High", "New", ""⟩ ⟨[], [], [], 0, ["c3"]⟩ =
      { inserts := [], updates := [], errors := [], dups := 1, existing := ["c3"] }
    ∧ (load_data_file "leads.csv"
        ⟨requiredColumns,
         [⟨"Al", "c3", "Referral", "Low", "New", ""⟩,
          ⟨"Bo", "c3", "Website", "High", "New", ""⟩]⟩ ⟨[], [], 1, 1⟩ false).1 =
      .ok ⟨"leads.csv", 2, 1, 0, 1, []⟩
    ∧ (1 : Nat) + 0 + 0 < 2 := by
  have h := claim_C10 [] [] 1 ⟨"Bo", "c3", "Website", "High", "New", ""⟩
    ⟨[], [], [], 0, ["c3"]⟩ .WEBSITE .HIGH .NEW rfl rfl rfl
    (by decide) (by decide) (by decide) rfl
  exact ⟨h.1, h.2.1, h.2.2⟩

end Glimpse
